import Mathlib

/-!
Verification of the evaluation scoring and assignment engine of a
multi-tenant employee-evaluation platform (FastAPI + SQLAlchemy).

The embedding models the relational store as explicit lists of rows and
each endpoint of `app/routers/evaluation.py` as a function from a
committed database state (plus request data and the authenticated
principal, where the route declares one) to a new committed state and a
result.  SQLAlchemy sessions are created per request with
`autocommit=False, autoflush=False`; a row added with `db.add` becomes
observable only at `db.commit()`, and a request that raises an
`HTTPException` before committing leaves the committed state unchanged
(the session is closed without commit, rolling pending rows back).
Queries issued during a request therefore see only committed rows
(`autoflush=False`), which the embedding reflects by running all
validation queries against the committed state.

Python ints are modelled as `Int`/`Nat`; the decimal weight literals of
the scoring engine are modelled as exact rationals (`ℚ`); datetimes are
abstracted to a `Nat` clock value supplied by the caller.
-/

namespace ADAP

/-- A catalog question: `Question` in `app/models.py` (id, text, unique code). -/
structure Question where
  id : Nat
  text : String
  code : String
deriving Repr, DecidableEq

/-- A stored answer: `Response` in `app/models.py`.  The autoincrement
surrogate `id` column is never consulted by any modelled operation and is
omitted. -/
structure Response where
  employee_evaluation_id : Nat
  question_id : Nat
  score : Int
deriving Repr, DecidableEq

/-- `EvaluationTemplate` in `app/models.py` (created_date omitted: never
consulted by modelled logic). -/
structure EvaluationTemplate where
  id : Nat
  title : String
  description : Option String
  company_id : Nat
deriving Repr, DecidableEq

/-- `Employee` in `app/models.py`, restricted to the columns the
assignment manager consults. -/
structure Employee where
  employee_id : Nat
  company_id : Nat
deriving Repr, DecidableEq

/-- `EmployeeEvaluation` in `app/models.py`: one assignment of a template
to an employee.  `id` is the primary key; dates are abstract `Nat`
instants. -/
structure EmployeeEvaluation where
  id : Nat
  employee_id : Nat
  template_id : Nat
  due_date : Nat
  completion_date : Option Nat
  is_completed : Bool
deriving Repr, DecidableEq

/-- `CalculationResult` in `app/models.py`: the derived scores of one
completed assignment. -/
structure CalculationResult where
  employee_evaluation_id : Nat
  F1 : ℚ
  F2 : ℚ
  F3 : ℚ
  F4 : ℚ
  F5 : ℚ
  E1 : ℚ
  F6 : ℚ
  E2 : ℚ
  F7 : ℚ
  F8 : ℚ
  F9 : ℚ
  E3 : ℚ
  overall_selfleadership : ℚ
  D1 : ℚ
  D2 : ℚ
  D3 : ℚ
  overall_performance_score : ℚ
  organizational_support_score : ℚ
deriving Repr, DecidableEq

/-- The committed relational store.  `next_template_id` and
`next_evaluation_id` model the autoincrement primary-key generators of
the respective tables. -/
structure DB where
  questions : List Question
  employees : List Employee
  evaluation_templates : List EvaluationTemplate
  employee_evaluations : List EmployeeEvaluation
  responses : List Response
  calculation_results : List CalculationResult
  next_template_id : Nat
  next_evaluation_id : Nat
deriving Repr, DecidableEq

/-- An `HTTPException` raised by a route: status code plus detail string. -/
structure HTTPError where
  status_code : Nat
  detail : String
deriving Repr, DecidableEq

/-- `AnswerSchema`: one submitted answer. -/
structure AnswerSchema where
  question_id : Nat
  score : Int
deriving Repr, DecidableEq

/-- `EvaluationResponseSchema`: the body of `POST /evaluation/submit`. -/
structure EvaluationResponseSchema where
  evaluation_id : Nat
  answers : List AnswerSchema
deriving Repr, DecidableEq

/-- The `user_type` discriminator of the authenticated principal. -/
inductive UserType where
  | company
  | employee
deriving Repr, DecidableEq

/-- The per-request principal dict produced by `get_current_user`. -/
structure CurrentUser where
  user_id : Nat
  user_type : UserType
deriving Repr, DecidableEq

/-- Does the question row with primary key `qid` carry `code`?  This is the
join condition `Response.question_id == Question.id ∧ Question.code == code`
of `get_response_score_by_code`. -/
def question_code_is (db : DB) (qid : Nat) (code : String) : Bool :=
  match db.questions.find? (fun q => q.id == qid) with
  | some q => q.code == code
  | none => false

/-- `get_response_score_by_code` (evaluation.py:170): first stored response of
the given assignment joined to the question with the given code; `0` when no
such response exists. -/
def get_response_score_by_code (db : DB) (employee_evaluation_id : Nat) (code : String) : Int :=
  match db.responses.find? (fun r =>
      r.employee_evaluation_id == employee_evaluation_id
        && question_code_is db r.question_id code) with
  | some r => r.score
  | none => 0

/-- The `sum(score * weight for code, weight in table)` pattern shared by the
three calculation helpers. -/
def weighted_sum (db : DB) (eeid : Nat) (table : List (String × ℚ)) : ℚ :=
  (table.map (fun cw => (get_response_score_by_code db eeid cw.1 : ℚ) * cw.2)).sum

/-- The thirteen values returned by `calculate_autoliderazgo`. -/
structure AutoliderazgoResult where
  F1 : ℚ
  F2 : ℚ
  F3 : ℚ
  F4 : ℚ
  F5 : ℚ
  E1 : ℚ
  F6 : ℚ
  E2 : ℚ
  F7 : ℚ
  F8 : ℚ
  F9 : ℚ
  E3 : ℚ
  overall_selfleadership : ℚ
deriving Repr, DecidableEq

/-- `calculate_autoliderazgo` (evaluation.py:183): the self-leadership
hierarchy with its hardcoded weight tables. -/
def calculate_autoliderazgo (db : DB) (eeid : Nat) : AutoliderazgoResult :=
  let F1 := weighted_sum db eeid
    [("Auto_10", 0.2003), ("Auto_6", 0.1918), ("Auto_5", 0.1306), ("Auto_3", 0.124)]
  let F2 := (get_response_score_by_code db eeid "Auto_14" : ℚ) * 0.0137
  let F3 := (get_response_score_by_code db eeid "Auto_4" : ℚ) * 0.0020
  let F4 := (get_response_score_by_code db eeid "Auto_7" : ℚ) * 0.1666
  let F5 := weighted_sum db eeid [("Auto_8", 0.0867), ("Auto_13", 0.1036)]
  let E1 := F1 + F2 + F3 + F4 + F5
  let F6 := weighted_sum db eeid
    [("Auto_16", 0.3726), ("Auto_17", 0.3551), ("Auto_15", 0.2721)]
  let E2 := F6
  let F7 := weighted_sum db eeid
    [("Auto_1", 0.1846), ("Auto_11", 0.2267), ("Auto_12", 0.1903)]
  let F8 := (get_response_score_by_code db eeid "Auto_2" : ℚ) * 0.0641
  let F9 := weighted_sum db eeid
    [("Auto_9", 0.1846), ("Auto_18", 0.2267), ("Auto_19", 0.0892)]
  let E3 := F7 + F8 + F9
  let overall_selfleadership := E1 * 0.3172 + E2 * 0.3155 + E3 * 0.3672
  ⟨F1, F2, F3, F4, F5, E1, F6, E2, F7, F8, F9, E3, overall_selfleadership⟩

/-- The four values returned by `calculate_desempeno`. -/
structure DesempenoResult where
  D1 : ℚ
  D2 : ℚ
  D3 : ℚ
  overall_performance_score : ℚ
deriving Repr, DecidableEq

/-- `calculate_desempeno` (evaluation.py:228): the performance hierarchy. -/
def calculate_desempeno (db : DB) (eeid : Nat) : DesempenoResult :=
  let D1 := weighted_sum db eeid
    [("Des_2", 0.327), ("Des_3", 0.271), ("Des_1", 0.238), ("Des_4", 0.162)]
  let D2 := weighted_sum db eeid
    [("Des_8", 0.1524), ("Des_9", 0.175), ("Des_7", 0.1301), ("Des_11", 0.1272),
     ("Des_10", 0.1223), ("Des_12", 0.1048), ("Des_6", 0.1045), ("Des_5", 0.834)]
  let D3 := weighted_sum db eeid
    [("Des_13", 0.1882), ("Des_14", 0.2051), ("Des_15", 0.2252), ("Des_16", 0.2029),
     ("Des_17", 0.1774)]
  let overall_performance_score := D1 * 0.4817 + D2 * 0.3936 + D3 * 0.1246
  ⟨D1, D2, D3, overall_performance_score⟩

/-- `calculate_apoyo_organizacional` (evaluation.py:263). -/
def calculate_apoyo_organizacional (db : DB) (eeid : Nat) : ℚ :=
  weighted_sum db eeid
    [("Apoyo_1", 0.1731), ("Apoyo_2", 0.1963), ("Apoyo_3", 0.1983),
     ("Apoyo_4", 0.1743), ("Apoyo_5", 0.167), ("Apoyo_6", 0.0908)]

/-- The per-answer loop of `submit_evaluation_responses` (evaluation.py:302):
for each answer, require the question to exist (404) and no committed response
for the same pair to exist (400), then stage a new `Response` with `db.add`.
Because the session runs with `autoflush=False`, the duplicate check queries
only the committed `db.responses`, never the rows staged earlier in the same
request. -/
def build_responses (db : DB) (eeid : Nat) (pending : List Response) :
    List AnswerSchema → Except HTTPError (List Response)
  | [] => .ok pending
  | answer :: rest =>
    match db.questions.find? (fun q => q.id == answer.question_id) with
    | none =>
      .error ⟨404, "Pregunta con ID " ++ toString answer.question_id ++ " no encontrada."⟩
    | some _ =>
      match db.responses.find? (fun r =>
          r.employee_evaluation_id == eeid && r.question_id == answer.question_id) with
      | some _ =>
        .error ⟨400, "Ya existe una respuesta para la pregunta con ID "
                       ++ toString answer.question_id ++ "."⟩
      | none =>
        build_responses db eeid
          (pending ++ [⟨eeid, answer.question_id, answer.score⟩]) rest

/-- The first half of `submit_evaluation_responses` (evaluation.py:286-330), up
to and including the first `db.commit()`: look the assignment up (404 when
absent), reject a completed assignment (400), validate and stage every answer,
then commit the staged `Response` rows.  The returned state is the committed
state right after that first commit. -/
def submit_phase1 (db : DB) (evaluation_data : EvaluationResponseSchema) :
    Except HTTPError DB :=
  match db.employee_evaluations.find? (fun ee => ee.id == evaluation_data.evaluation_id) with
  | none => .error ⟨404, "Evaluación asignada no encontrada."⟩
  | some ee =>
    if ee.is_completed then
      .error ⟨400, "Esta evaluación ya ha sido completada."⟩
    else
      match build_responses db ee.id [] evaluation_data.answers with
      | .error e => .error e
      | .ok pending => .ok { db with responses := db.responses ++ pending }

/-- The second half of `submit_evaluation_responses` (evaluation.py:332-352):
run the three calculation helpers over the committed responses, stage the
`CalculationResult` row, set `is_completed`/`completion_date` on the assignment
row (identified by its primary key), and commit.  This half cannot fail. -/
def submit_finish (db1 : DB) (eeid : Nat) (now : Nat) : DB :=
  let a := calculate_autoliderazgo db1 eeid
  let d := calculate_desempeno db1 eeid
  let o := calculate_apoyo_organizacional db1 eeid
  let calculation_result : CalculationResult :=
    ⟨eeid, a.F1, a.F2, a.F3, a.F4, a.F5, a.E1, a.F6, a.E2, a.F7, a.F8, a.F9, a.E3,
     a.overall_selfleadership, d.D1, d.D2, d.D3, d.overall_performance_score, o⟩
  { db1 with
    calculation_results := db1.calculation_results ++ [calculation_result],
    employee_evaluations := db1.employee_evaluations.map (fun ee =>
      if ee.id == eeid then { ee with is_completed := true, completion_date := some now }
      else ee) }

/-- The success payload of `POST /evaluation/submit`. -/
structure SubmitResult where
  evaluation_id : Nat
  overall_selfleadership : ℚ
  overall_performance_score : ℚ
  organizational_support_score : ℚ
deriving Repr, DecidableEq

/-- `submit_evaluation_responses` (evaluation.py:278): the whole route.  The
route declares no authenticated-principal dependency, so no `CurrentUser`
argument exists.  The returned `DB` is the final committed state: a raised
`HTTPException` leaves the committed state unchanged because the session is
closed without commit. -/
def submit_evaluation_responses (db : DB) (evaluation_data : EvaluationResponseSchema)
    (now : Nat) : DB × Except HTTPError SubmitResult :=
  match submit_phase1 db evaluation_data with
  | .error e => (db, .error e)
  | .ok db1 =>
    let db2 := submit_finish db1 evaluation_data.evaluation_id now
    (db2, .ok ⟨evaluation_data.evaluation_id,
               (calculate_autoliderazgo db1 evaluation_data.evaluation_id).overall_selfleadership,
               (calculate_desempeno db1 evaluation_data.evaluation_id).overall_performance_score,
               calculate_apoyo_organizacional db1 evaluation_data.evaluation_id⟩)

/-- The body of `POST /evaluation/template`. -/
structure CreateEvaluationTemplateRequest where
  title : String
  description : Option String
deriving Repr, DecidableEq

/-- `create_evaluation_template` (evaluation.py:364): company-only (403);
rejects a duplicate `(company_id, title)` pair (400) without inserting;
otherwise inserts one template row and returns its id. -/
def create_evaluation_template (db : DB) (current_user : CurrentUser)
    (request : CreateEvaluationTemplateRequest) : DB × Except HTTPError Nat :=
  if current_user.user_type != UserType.company then
    (db, .error ⟨403, "Only companies can create evaluation templates."⟩)
  else
    match db.evaluation_templates.find? (fun t =>
        t.title == request.title && t.company_id == current_user.user_id) with
    | some _ =>
      (db, .error ⟨400, "An evaluation template with this title already exists for your company."⟩)
    | none =>
      let t : EvaluationTemplate :=
        ⟨db.next_template_id, request.title, request.description, current_user.user_id⟩
      ({ db with
          evaluation_templates := db.evaluation_templates ++ [t],
          next_template_id := db.next_template_id + 1 },
       .ok t.id)

/-- The body of `POST /evaluation/assign`. -/
structure AssignEvaluationRequest where
  template_id : Nat
  employee_ids : List Nat
  due_date : Nat
deriving Repr, DecidableEq

/-- The per-employee loop of `assign_evaluation_to_employees`
(evaluation.py:484): require each listed employee to exist and belong to the
calling company (404), then stage one `EmployeeEvaluation` row per list entry.
`next_id` models the autoincrement primary-key generator. -/
def build_assignments (db : DB) (company_id template_id due_date : Nat) (next_id : Nat)
    (pending : List EmployeeEvaluation) :
    List Nat → Except HTTPError (List EmployeeEvaluation)
  | [] => .ok pending
  | employee_id :: rest =>
    match db.employees.find? (fun e =>
        e.employee_id == employee_id && e.company_id == company_id) with
    | none =>
      .error ⟨404, "Employee with ID " ++ toString employee_id
                     ++ " not found or does not belong to your company."⟩
    | some _ =>
      build_assignments db company_id template_id due_date (next_id + 1)
        (pending ++ [⟨next_id, employee_id, template_id, due_date, none, false⟩]) rest

/-- `assign_evaluation_to_employees` (evaluation.py:454): company-only (403);
the template must exist and belong to the calling company (404); every listed
employee must belong to the calling company (404); a single `db.commit()` at
the end makes all staged rows observable, so any failure leaves the committed
state unchanged. -/
def assign_evaluation_to_employees (db : DB) (current_user : CurrentUser)
    (request : AssignEvaluationRequest) : DB × Except HTTPError Unit :=
  if current_user.user_type != UserType.company then
    (db, .error ⟨403, "Only companies can assign evaluations."⟩)
  else
    match db.evaluation_templates.find? (fun t =>
        t.id == request.template_id && t.company_id == current_user.user_id) with
    | none =>
      (db, .error ⟨404, "Evaluation template not found or does not belong to your company."⟩)
    | some _ =>
      match build_assignments db current_user.user_id request.template_id request.due_date
          db.next_evaluation_id [] request.employee_ids with
      | .error e => (db, .error e)
      | .ok pending =>
        ({ db with
            employee_evaluations := db.employee_evaluations ++ pending,
            next_evaluation_id := db.next_evaluation_id + pending.length },
         .ok ())

/-- One observable transition of the committed store: a template creation, an
assignment batch, a submission interrupted right after its first commit
(evaluation.py:330), or a submission that ran to its second commit
(evaluation.py:352).  Failed requests appear as stuttering steps because they
leave the committed state unchanged. -/
inductive Step : DB → DB → Prop where
  | createTemplate (db : DB) (cu : CurrentUser) (req : CreateEvaluationTemplateRequest) :
      Step db (create_evaluation_template db cu req).1
  | assign (db : DB) (cu : CurrentUser) (req : AssignEvaluationRequest) :
      Step db (assign_evaluation_to_employees db cu req).1
  | submitCommit1 (db db1 : DB) (evaluation_data : EvaluationResponseSchema) :
      submit_phase1 db evaluation_data = .ok db1 → Step db db1
  | submitFull (db : DB) (evaluation_data : EvaluationResponseSchema) (now : Nat) :
      Step db (submit_evaluation_responses db evaluation_data now).1

/-- Committed states reachable from a given state by the modelled operations. -/
inductive Reachable : DB → DB → Prop where
  | refl (db : DB) : Reachable db db
  | tail {db1 db2 db3 : DB} : Reachable db1 db2 → Step db2 db3 → Reachable db1 db3

/-- An initial store: the catalog, employee and template tables may hold
anything, but no assignment has been made yet and no submission processed. -/
def DB.Init (db : DB) : Prop :=
  db.employee_evaluations = [] ∧ db.responses = [] ∧ db.calculation_results = []

/-- Number of `CalculationResult` rows stored for the given assignment. -/
def calc_count (db : DB) (eeid : Nat) : Nat :=
  (db.calculation_results.filter (fun c => c.employee_evaluation_id == eeid)).length

/-- The completion invariant of the spec: for every assignment row,
`is_completed` holds exactly when `completion_date` is set, exactly when
exactly one `CalculationResult` row exists for it (and an incomplete
assignment has none). -/
def CompletionInvariant (db : DB) : Prop :=
  ∀ ee ∈ db.employee_evaluations,
    (ee.is_completed = true ↔ ee.completion_date.isSome = true)
    ∧ (ee.is_completed = true ↔ calc_count db ee.id = 1)
    ∧ (ee.is_completed = false → calc_count db ee.id = 0)

/-- Auxiliary invariants carried through the induction: primary keys of
assignment rows are distinct and below the autoincrement counter, and every
`CalculationResult` row belongs to an existing completed assignment. -/
def AuxInvariant (db : DB) : Prop :=
  (db.employee_evaluations.map (fun ee => ee.id)).Nodup
  ∧ (∀ ee ∈ db.employee_evaluations, ee.id < db.next_evaluation_id)
  ∧ (∀ c ∈ db.calculation_results, ∃ ee ∈ db.employee_evaluations,
       ee.id = c.employee_evaluation_id ∧ ee.is_completed = true)

def Invariant (db : DB) : Prop := AuxInvariant db ∧ CompletionInvariant db

/-! ### Lemmas about `submit_evaluation_responses` -/

lemma submit_phase1_ok_found {db db1 : DB} {data : EvaluationResponseSchema}
    (h : submit_phase1 db data = .ok db1) :
    ∃ ee, db.employee_evaluations.find? (fun e => e.id == data.evaluation_id) = some ee
      ∧ ee.is_completed = false := by
  unfold submit_phase1 at h
  split at h
  · exact absurd h (by simp)
  next ee hf =>
    split at h
    · exact absurd h (by simp)
    next hc =>
      exact ⟨ee, hf, by simpa using hc⟩

lemma submit_phase1_ok_shape {db db1 : DB} {data : EvaluationResponseSchema}
    (h : submit_phase1 db data = .ok db1) :
    ∃ pend, db1 = { db with responses := db.responses ++ pend } := by
  unfold submit_phase1 at h
  split at h
  · exact absurd h (by simp)
  next ee hf =>
    split at h
    · exact absurd h (by simp)
    next hc =>
      split at h
      · exact absurd h (by simp)
      next pend hb =>
        exact ⟨pend, by simpa using h.symm⟩

lemma submit_error_unchanged {db : DB} {data : EvaluationResponseSchema} {now : Nat}
    {e : HTTPError}
    (h : (submit_evaluation_responses db data now).2 = .error e) :
    (submit_evaluation_responses db data now).1 = db := by
  unfold submit_evaluation_responses at *
  cases hp : submit_phase1 db data with
  | error e2 => simp [hp]
  | ok db1 => simp [hp] at h

lemma submit_success_shape {db : DB} {data : EvaluationResponseSchema} {now : Nat}
    {r : SubmitResult}
    (h : (submit_evaluation_responses db data now).2 = .ok r) :
    ∃ db1, submit_phase1 db data = .ok db1
      ∧ (submit_evaluation_responses db data now).1
          = submit_finish db1 data.evaluation_id now := by
  unfold submit_evaluation_responses at *
  cases hp : submit_phase1 db data with
  | error e2 => simp [hp] at h
  | ok db1 => exact ⟨db1, rfl, by simp [hp]⟩

lemma submit_result_cases (db : DB) (data : EvaluationResponseSchema) (now : Nat) :
    (submit_evaluation_responses db data now).1 = db
    ∨ ∃ db1, submit_phase1 db data = .ok db1
        ∧ (submit_evaluation_responses db data now).1
            = submit_finish db1 data.evaluation_id now := by
  unfold submit_evaluation_responses
  cases hp : submit_phase1 db data with
  | error e2 => left; rfl
  | ok db1 => right; exact ⟨db1, rfl, rfl⟩

lemma build_responses_error_status {db : DB} {eeid : Nat} {pending : List Response}
    {answers : List AnswerSchema} {e : HTTPError}
    (h : build_responses db eeid pending answers = .error e) :
    e.status_code = 404 ∨ e.status_code = 400 := by
  induction answers generalizing pending with
  | nil => simp [build_responses] at h
  | cons a rest ih =>
    unfold build_responses at h
    split at h
    · left
      have : e = ⟨404, "Pregunta con ID " ++ toString a.question_id ++ " no encontrada."⟩ := by
        simpa using h.symm
      rw [this]
    · split at h
      · right
        have : e = ⟨400, "Ya existe una respuesta para la pregunta con ID "
                          ++ toString a.question_id ++ "."⟩ := by
          simpa using h.symm
        rw [this]
      · exact ih h

lemma submit_phase1_error_status {db : DB} {data : EvaluationResponseSchema} {e : HTTPError}
    (h : submit_phase1 db data = .error e) :
    e.status_code = 404 ∨ e.status_code = 400 := by
  unfold submit_phase1 at h
  split at h
  · left
    have : e = ⟨404, "Evaluación asignada no encontrada."⟩ := by simpa using h.symm
    rw [this]
  next ee hf =>
    split at h
    · right
      have : e = ⟨400, "Esta evaluación ya ha sido completada."⟩ := by simpa using h.symm
      rw [this]
    · split at h
      next e2 hb =>
        have : e = e2 := by simpa using h.symm
        rw [this]
        exact build_responses_error_status hb
      next pend hb => exact absurd h (by simp)

lemma submit_of_phase1_error {db : DB} {data : EvaluationResponseSchema} {now : Nat}
    {e : HTTPError}
    (h : submit_phase1 db data = .error e) :
    submit_evaluation_responses db data now = (db, .error e) := by
  unfold submit_evaluation_responses
  rw [h]

lemma build_responses_fails {db : DB} {eeid : Nat} {answers : List AnswerSchema}
    (hbad : ∃ a ∈ answers,
      db.questions.find? (fun q => q.id == a.question_id) = none
      ∨ (db.responses.find? (fun r =>
           r.employee_evaluation_id == eeid && r.question_id == a.question_id)).isSome
            = true) :
    ∀ pending, ∃ e, build_responses db eeid pending answers = .error e := by
  induction answers with
  | nil => simp at hbad
  | cons a rest ih =>
    intro pending
    unfold build_responses
    cases hq : db.questions.find? (fun q => q.id == a.question_id) with
    | none => exact ⟨_, rfl⟩
    | some q =>
      cases hr : db.responses.find? (fun r =>
          r.employee_evaluation_id == eeid && r.question_id == a.question_id) with
      | some r => exact ⟨_, rfl⟩
      | none =>
        obtain ⟨b, hb, hcase⟩ := hbad
        rcases List.mem_cons.mp hb with hb1 | hb1
        · subst hb1
          rcases hcase with hcase | hcase
          · rw [hq] at hcase
            exact absurd hcase (by simp)
          · rw [hr] at hcase
            simp at hcase
        · exact ih ⟨b, hb1, hcase⟩ _

lemma submit_already_completed_eq {db : DB} {data : EvaluationResponseSchema} {now : Nat}
    {ee : EmployeeEvaluation}
    (hf : db.employee_evaluations.find? (fun e => e.id == data.evaluation_id) = some ee)
    (hc : ee.is_completed = true) :
    submit_evaluation_responses db data now
      = (db, .error ⟨400, "Esta evaluación ya ha sido completada."⟩) := by
  unfold submit_evaluation_responses submit_phase1
  rw [hf]
  simp [hc]

lemma submit_finish_evals (db1 : DB) (eeid now : Nat) :
    (submit_finish db1 eeid now).employee_evaluations =
      db1.employee_evaluations.map (fun ee =>
        if ee.id == eeid then { ee with is_completed := true, completion_date := some now }
        else ee) := rfl

lemma calc_count_finish (db1 : DB) (eeid now x : Nat) :
    calc_count (submit_finish db1 eeid now) x =
      calc_count db1 x + (if eeid = x then 1 else 0) := by
  unfold calc_count submit_finish
  simp only [List.filter_append, List.length_append]
  congr 1
  by_cases hx : eeid = x <;> simp [hx]

/-! ### Lemmas about `create_evaluation_template` -/

lemma create_preserves (db : DB) (cu : CurrentUser) (req : CreateEvaluationTemplateRequest) :
    ((create_evaluation_template db cu req).1).employee_evaluations = db.employee_evaluations
    ∧ ((create_evaluation_template db cu req).1).calculation_results = db.calculation_results
    ∧ ((create_evaluation_template db cu req).1).next_evaluation_id = db.next_evaluation_id := by
  unfold create_evaluation_template
  split
  · exact ⟨rfl, rfl, rfl⟩
  · split
    · exact ⟨rfl, rfl, rfl⟩
    · exact ⟨rfl, rfl, rfl⟩

/-- Templates of the calling company carrying the requested title. -/
def templates_with_title (db : DB) (company_id : Nat) (title : String) :
    List EvaluationTemplate :=
  db.evaluation_templates.filter (fun t => t.title == title && t.company_id == company_id)

lemma create_duplicate_rejected {db : DB} {cu : CurrentUser}
    {req : CreateEvaluationTemplateRequest} {t0 : EvaluationTemplate}
    (hcu : cu.user_type = UserType.company)
    (hdup : db.evaluation_templates.find?
        (fun t => t.title == req.title && t.company_id == cu.user_id) = some t0) :
    create_evaluation_template db cu req
      = (db, .error ⟨400, "An evaluation template with this title already exists for your company."⟩) := by
  unfold create_evaluation_template
  rw [hcu]
  simp only [bne_self_eq_false, Bool.false_eq_true, if_false, hdup]

lemma create_fresh_inserts {db : DB} {cu : CurrentUser}
    {req : CreateEvaluationTemplateRequest}
    (hcu : cu.user_type = UserType.company)
    (hnone : db.evaluation_templates.find?
        (fun t => t.title == req.title && t.company_id == cu.user_id) = none) :
    create_evaluation_template db cu req
      = ({ db with
            evaluation_templates := db.evaluation_templates
              ++ [⟨db.next_template_id, req.title, req.description, cu.user_id⟩],
            next_template_id := db.next_template_id + 1 },
         .ok db.next_template_id) := by
  unfold create_evaluation_template
  rw [hcu]
  simp only [bne_self_eq_false, Bool.false_eq_true, if_false, hnone]

lemma find?_none_iff_filter_nil {α : Type} {p : α → Bool} {l : List α} :
    l.find? p = none ↔ l.filter p = [] := by
  rw [List.find?_eq_none, List.filter_eq_nil_iff]

/-! ### Lemmas about `assign_evaluation_to_employees` -/

/-- The rows staged by a successful per-employee loop, starting at primary
key `next_id`. -/
def assignments_for (template_id due_date next_id : Nat) :
    List Nat → List EmployeeEvaluation
  | [] => []
  | employee_id :: rest =>
      ⟨next_id, employee_id, template_id, due_date, none, false⟩
        :: assignments_for template_id due_date (next_id + 1) rest

lemma assignments_for_length (t d n : Nat) (ids : List Nat) :
    (assignments_for t d n ids).length = ids.length := by
  induction ids generalizing n with
  | nil => rfl
  | cons a rest ih => simp [assignments_for, ih]

lemma assignments_for_map_id (t d n : Nat) (ids : List Nat) :
    (assignments_for t d n ids).map (fun a => a.id) = List.range' n ids.length := by
  induction ids generalizing n with
  | nil => rfl
  | cons a rest ih => simp [assignments_for, List.range', ih]

lemma assignments_for_mem {t d n : Nat} {ids : List Nat} {a : EmployeeEvaluation}
    (h : a ∈ assignments_for t d n ids) :
    a.is_completed = false ∧ a.completion_date = none ∧ a.template_id = t
      ∧ n ≤ a.id ∧ a.employee_id ∈ ids := by
  induction ids generalizing n with
  | nil => simp [assignments_for] at h
  | cons x rest ih =>
    simp only [assignments_for, List.mem_cons] at h
    rcases h with h | h
    · subst h
      exact ⟨rfl, rfl, rfl, Nat.le_refl n, by simp⟩
    · obtain ⟨h1, h2, h3, h4, h5⟩ := ih h
      exact ⟨h1, h2, h3, Nat.le_of_succ_le h4, by simp [h5]⟩

lemma assignments_for_count (t d n eid : Nat) (ids : List Nat) :
    ((assignments_for t d n ids).filter (fun a => a.employee_id == eid)).length
      = ids.count eid := by
  induction ids generalizing n with
  | nil => rfl
  | cons x rest ih =>
    by_cases hx : x = eid <;>
      simp [assignments_for, List.filter_cons, List.count_cons, ih (n + 1), hx]

lemma build_assignments_ok {db : DB} {c t d n : Nat} {pending out : List EmployeeEvaluation}
    {ids : List Nat}
    (h : build_assignments db c t d n pending ids = .ok out) :
    out = pending ++ assignments_for t d n ids := by
  induction ids generalizing pending n with
  | nil => simpa [build_assignments, assignments_for] using h.symm
  | cons x rest ih =>
    unfold build_assignments at h
    split at h
    · exact absurd h (by simp)
    · have := ih h
      simpa [assignments_for] using this

lemma build_assignments_total {db : DB} {c t d : Nat} {ids : List Nat}
    (hall : ∀ eid ∈ ids, (db.employees.find?
        (fun e => e.employee_id == eid && e.company_id == c)).isSome = true) :
    ∀ n pending, build_assignments db c t d n pending ids
      = .ok (pending ++ assignments_for t d n ids) := by
  induction ids with
  | nil => intro n pending; simp [build_assignments, assignments_for]
  | cons x rest ih =>
    intro n pending
    have hx := hall x (by simp)
    unfold build_assignments
    cases hfind : db.employees.find? (fun e => e.employee_id == x && e.company_id == c) with
    | none => rw [hfind] at hx; simp at hx
    | some emp =>
      have := ih (fun eid hm => hall eid (by simp [hm])) (n + 1)
        (pending ++ [⟨n, x, t, d, none, false⟩])
      simpa [assignments_for] using this

lemma build_assignments_unowned {db : DB} {c t d : Nat} {ids : List Nat} {eid : Nat}
    (hmem : eid ∈ ids)
    (hnone : db.employees.find?
        (fun e => e.employee_id == eid && e.company_id == c) = none) :
    ∀ n pending, ∃ e, build_assignments db c t d n pending ids = .error e
      ∧ e.status_code = 404 := by
  induction ids with
  | nil => simp at hmem
  | cons x rest ih =>
    intro n pending
    rcases List.mem_cons.mp hmem with hx | hx
    · subst hx
      unfold build_assignments
      rw [hnone]
      exact ⟨_, rfl, rfl⟩
    · unfold build_assignments
      cases hfind : db.employees.find? (fun e => e.employee_id == x && e.company_id == c) with
      | none => exact ⟨_, rfl, rfl⟩
      | some emp => exact ih hx (n + 1) (pending ++ [⟨n, x, t, d, none, false⟩])

lemma assign_full_cases (db : DB) (cu : CurrentUser) (req : AssignEvaluationRequest) :
    (∃ e, assign_evaluation_to_employees db cu req = (db, .error e))
    ∨ assign_evaluation_to_employees db cu req
        = ({ db with
              employee_evaluations := db.employee_evaluations
                ++ assignments_for req.template_id req.due_date db.next_evaluation_id
                     req.employee_ids,
              next_evaluation_id := db.next_evaluation_id
                + (assignments_for req.template_id req.due_date db.next_evaluation_id
                     req.employee_ids).length },
           .ok ()) := by
  unfold assign_evaluation_to_employees
  split
  · exact .inl ⟨_, rfl⟩
  · split
    · exact .inl ⟨_, rfl⟩
    · split
      · exact .inl ⟨_, rfl⟩
      next pending hb =>
        right
        have := build_assignments_ok hb
        simp only [List.nil_append] at this
        subst this
        rfl

lemma assign_error_unchanged {db : DB} {cu : CurrentUser} {req : AssignEvaluationRequest}
    {e : HTTPError}
    (h : (assign_evaluation_to_employees db cu req).2 = .error e) :
    (assign_evaluation_to_employees db cu req).1 = db := by
  rcases assign_full_cases db cu req with ⟨e2, he⟩ | he
  · rw [he]
  · rw [he] at h
    simp at h

/-! ### Preservation of the completion invariant -/

lemma init_invariant {db : DB} (h : DB.Init db) : Invariant db := by
  obtain ⟨h1, _, h3⟩ := h
  refine ⟨⟨?_, ?_, ?_⟩, ?_⟩
  · rw [h1]; exact List.nodup_nil
  · intro ee hm; rw [h1] at hm; exact absurd hm (List.not_mem_nil ee)
  · intro c hm; rw [h3] at hm; exact absurd hm (List.not_mem_nil c)
  · intro ee hm; rw [h1] at hm; exact absurd hm (List.not_mem_nil ee)

lemma invariant_congr {db db' : DB}
    (he : db'.employee_evaluations = db.employee_evaluations)
    (hc : db'.calculation_results = db.calculation_results)
    (hn : db.next_evaluation_id ≤ db'.next_evaluation_id)
    (hinv : Invariant db) : Invariant db' := by
  obtain ⟨⟨a1, a2, a3⟩, a4⟩ := hinv
  have hcount : ∀ x, calc_count db' x = calc_count db x := by
    intro x; unfold calc_count; rw [hc]
  refine ⟨⟨?_, ?_, ?_⟩, ?_⟩
  · rw [he]; exact a1
  · intro ee hm; rw [he] at hm
    exact Nat.lt_of_lt_of_le (a2 ee hm) hn
  · intro c hm; rw [hc] at hm
    obtain ⟨ee, hee, h1, h2⟩ := a3 c hm
    exact ⟨ee, by rw [he]; exact hee, h1, h2⟩
  · intro ee hm; rw [he] at hm
    rcases a4 ee hm with ⟨p1, p2, p3⟩
    exact ⟨p1, by rw [hcount]; exact p2, by rw [hcount]; exact p3⟩

lemma invariant_create (db : DB) (cu : CurrentUser) (req : CreateEvaluationTemplateRequest)
    (hinv : Invariant db) : Invariant (create_evaluation_template db cu req).1 := by
  obtain ⟨he, hc, hn⟩ := create_preserves db cu req
  exact invariant_congr he hc (Nat.le_of_eq hn.symm) hinv

lemma invariant_phase1 {db db1 : DB} {data : EvaluationResponseSchema}
    (hp : submit_phase1 db data = .ok db1)
    (hinv : Invariant db) : Invariant db1 := by
  obtain ⟨pend, hshape⟩ := submit_phase1_ok_shape hp
  subst hshape
  exact invariant_congr rfl rfl (Nat.le_refl _) hinv

lemma invariant_assign (db : DB) (cu : CurrentUser) (req : AssignEvaluationRequest)
    (hinv : Invariant db) : Invariant (assign_evaluation_to_employees db cu req).1 := by
  rcases assign_full_cases db cu req with ⟨e, he⟩ | he
  · rw [he]; exact hinv
  · rw [he]
    dsimp only
    obtain ⟨⟨a1, a2, a3⟩, a4⟩ := hinv
    have hnewid : ∀ a ∈ assignments_for req.template_id req.due_date
        db.next_evaluation_id req.employee_ids,
        db.next_evaluation_id ≤ a.id
          ∧ a.id < db.next_evaluation_id + req.employee_ids.length := by
      intro a ha
      have : a.id ∈ (assignments_for req.template_id req.due_date
          db.next_evaluation_id req.employee_ids).map (fun a => a.id) :=
        List.mem_map_of_mem _ ha
      rw [assignments_for_map_id] at this
      exact List.mem_range'_1.mp this
    have hnewcount : ∀ a ∈ assignments_for req.template_id req.due_date
        db.next_evaluation_id req.employee_ids, calc_count db a.id = 0 := by
      intro a ha
      unfold calc_count
      rw [List.length_eq_zero, ← find?_none_iff_filter_nil, List.find?_eq_none]
      intro c hc hbeq
      obtain ⟨ee, hee, hid, _⟩ := a3 c hc
      have h1 : ee.id < db.next_evaluation_id := a2 ee hee
      have h2 : c.employee_evaluation_id = a.id := by simpa using hbeq
      have h3 : db.next_evaluation_id ≤ a.id := (hnewid a ha).1
      omega
    refine ⟨⟨?_, ?_, ?_⟩, ?_⟩
    · simp only [List.map_append]
      rw [List.nodup_append]
      refine ⟨a1, ?_, ?_⟩
      · rw [assignments_for_map_id]
        exact List.nodup_range' _ _
      · intro x hx hy
        rw [assignments_for_map_id, List.mem_range'_1] at hy
        obtain ⟨ee, hee, hid⟩ := List.mem_map.mp hx
        have := a2 ee hee
        omega
    · intro ee hm
      simp only [List.mem_append] at hm
      rcases hm with hm | hm
      · have := a2 ee hm
        simp only [List.length_append]
        omega
      · have hub := (hnewid ee hm).2
        simp only [assignments_for_length]
        omega
    · intro c hm
      obtain ⟨ee, hee, h1, h2⟩ := a3 c hm
      exact ⟨ee, List.mem_append_left _ hee, h1, h2⟩
    · intro ee hm
      have hcount : ∀ x, calc_count { db with
          employee_evaluations := db.employee_evaluations
            ++ assignments_for req.template_id req.due_date db.next_evaluation_id
                 req.employee_ids,
          next_evaluation_id := db.next_evaluation_id
            + (assignments_for req.template_id req.due_date db.next_evaluation_id
                 req.employee_ids).length } x = calc_count db x := by
        intro x; unfold calc_count; rfl
      simp only [List.mem_append] at hm
      rcases hm with hm | hm
      · rcases a4 ee hm with ⟨p1, p2, p3⟩
        exact ⟨p1, by rw [hcount]; exact p2, by rw [hcount]; exact p3⟩
      · obtain ⟨q1, q2, _, _, _⟩ := assignments_for_mem hm
        have hz := hnewcount ee hm
        refine ⟨?_, ?_, ?_⟩
        · rw [q1, q2]; simp
        · rw [q1, hcount, hz]; simp
        · intro _; rw [hcount]; exact hz

lemma finish_keeps_ids (db1 : DB) (eeid now : Nat) :
    ((submit_finish db1 eeid now).employee_evaluations).map (fun ee => ee.id)
      = db1.employee_evaluations.map (fun ee => ee.id) := by
  rw [submit_finish_evals, List.map_map]
  refine List.map_congr_left ?_
  intro ee _
  by_cases h : ee.id = eeid <;> simp [h]

lemma invariant_submit_finish {db db1 : DB} {data : EvaluationResponseSchema} {now : Nat}
    (hp : submit_phase1 db data = .ok db1)
    (hinv : Invariant db) : Invariant (submit_finish db1 data.evaluation_id now) := by
  have hinv1 : Invariant db1 := invariant_phase1 hp hinv
  obtain ⟨ee0, hfind, hinc⟩ := submit_phase1_ok_found hp
  obtain ⟨pend, hshape⟩ := submit_phase1_ok_shape hp
  have hmem0 : ee0 ∈ db1.employee_evaluations := by
    rw [hshape]
    exact List.mem_of_find?_eq_some hfind
  have hid0 : ee0.id = data.evaluation_id := by
    have := List.find?_some hfind
    simpa using this
  obtain ⟨⟨a1, a2, a3⟩, a4⟩ := hinv1
  have hcount0 : calc_count db1 data.evaluation_id = 0 := by
    rw [← hid0]
    exact ((a4 ee0 hmem0).2.2) hinc
  have hf : ∀ ee : EmployeeEvaluation,
      (if ee.id == data.evaluation_id
        then { ee with is_completed := true, completion_date := some now }
        else ee).id = ee.id := by
    intro ee
    by_cases h : ee.id = data.evaluation_id <;> simp [h]
  refine ⟨⟨?_, ?_, ?_⟩, ?_⟩
  · rw [finish_keeps_ids]
    exact a1
  · intro ee hm
    rw [submit_finish_evals] at hm
    obtain ⟨ee1, hee1, hmap⟩ := List.mem_map.mp hm
    have : ee.id = ee1.id := by rw [← hmap]; exact hf ee1
    rw [this]
    exact a2 ee1 hee1
  · intro c hm
    have hcalcs : (submit_finish db1 data.evaluation_id now).calculation_results
        = db1.calculation_results ++ [⟨data.evaluation_id,
            (calculate_autoliderazgo db1 data.evaluation_id).F1,
            (calculate_autoliderazgo db1 data.evaluation_id).F2,
            (calculate_autoliderazgo db1 data.evaluation_id).F3,
            (calculate_autoliderazgo db1 data.evaluation_id).F4,
            (calculate_autoliderazgo db1 data.evaluation_id).F5,
            (calculate_autoliderazgo db1 data.evaluation_id).E1,
            (calculate_autoliderazgo db1 data.evaluation_id).F6,
            (calculate_autoliderazgo db1 data.evaluation_id).E2,
            (calculate_autoliderazgo db1 data.evaluation_id).F7,
            (calculate_autoliderazgo db1 data.evaluation_id).F8,
            (calculate_autoliderazgo db1 data.evaluation_id).F9,
            (calculate_autoliderazgo db1 data.evaluation_id).E3,
            (calculate_autoliderazgo db1 data.evaluation_id).overall_selfleadership,
            (calculate_desempeno db1 data.evaluation_id).D1,
            (calculate_desempeno db1 data.evaluation_id).D2,
            (calculate_desempeno db1 data.evaluation_id).D3,
            (calculate_desempeno db1 data.evaluation_id).overall_performance_score,
            calculate_apoyo_organizacional db1 data.evaluation_id⟩] := rfl
    rw [hcalcs, List.mem_append] at hm
    rcases hm with hm | hm
    · obtain ⟨ee, hee, hideq, hcomp⟩ := a3 c hm
      refine ⟨if ee.id == data.evaluation_id
          then { ee with is_completed := true, completion_date := some now } else ee,
        ?_, ?_, ?_⟩
      · rw [submit_finish_evals]
        exact List.mem_map_of_mem _ hee
      · rw [hf ee]; exact hideq
      · by_cases h : ee.id = data.evaluation_id <;> simp [h, hcomp]
    · have hc : c = ⟨data.evaluation_id,
          (calculate_autoliderazgo db1 data.evaluation_id).F1,
          (calculate_autoliderazgo db1 data.evaluation_id).F2,
          (calculate_autoliderazgo db1 data.evaluation_id).F3,
          (calculate_autoliderazgo db1 data.evaluation_id).F4,
          (calculate_autoliderazgo db1 data.evaluation_id).F5,
          (calculate_autoliderazgo db1 data.evaluation_id).E1,
          (calculate_autoliderazgo db1 data.evaluation_id).F6,
          (calculate_autoliderazgo db1 data.evaluation_id).E2,
          (calculate_autoliderazgo db1 data.evaluation_id).F7,
          (calculate_autoliderazgo db1 data.evaluation_id).F8,
          (calculate_autoliderazgo db1 data.evaluation_id).F9,
          (calculate_autoliderazgo db1 data.evaluation_id).E3,
          (calculate_autoliderazgo db1 data.evaluation_id).overall_selfleadership,
          (calculate_desempeno db1 data.evaluation_id).D1,
          (calculate_desempeno db1 data.evaluation_id).D2,
          (calculate_desempeno db1 data.evaluation_id).D3,
          (calculate_desempeno db1 data.evaluation_id).overall_performance_score,
          calculate_apoyo_organizacional db1 data.evaluation_id⟩ := by
        simpa using hm
      refine ⟨{ ee0 with is_completed := true, completion_date := some now },
        ?_, ?_, rfl⟩
      · rw [submit_finish_evals]
        have := List.mem_map_of_mem (fun ee =>
          if ee.id == data.evaluation_id
            then { ee with is_completed := true, completion_date := some now } else ee) hmem0
        simpa [hid0] using this
      · rw [hc]
        simpa using hid0
  · intro ee hm
    rw [submit_finish_evals] at hm
    obtain ⟨ee1, hee1, hmap⟩ := List.mem_map.mp hm
    by_cases h : ee1.id = data.evaluation_id
    · have hee1eq : ee1 = ee0 := by
        refine List.inj_on_of_nodup_map a1 hee1 hmem0 ?_
        rw [h, hid0]
      have hee : ee = { ee1 with is_completed := true, completion_date := some now } := by
        rw [← hmap]; simp [h]
      refine ⟨?_, ?_, ?_⟩
      · rw [hee]; simp
      · rw [hee]
        dsimp only
        rw [h, calc_count_finish, hcount0]
        simp
      · rw [hee]
        intro hfalse
        simp at hfalse
    · have hee : ee = ee1 := by rw [← hmap]; simp [h]
      subst hee
      rcases a4 ee hee1 with ⟨p1, p2, p3⟩
      have hcnt : calc_count (submit_finish db1 data.evaluation_id now) ee.id
          = calc_count db1 ee.id := by
        rw [calc_count_finish, if_neg (fun hx => h hx.symm)]
        simp
      exact ⟨p1, by rw [hcnt]; exact p2, by rw [hcnt]; exact p3⟩

lemma step_preserves_invariant {db db' : DB} (h : Step db db') (hinv : Invariant db) :
    Invariant db' := by
  cases h with
  | createTemplate cu req => exact invariant_create _ cu req hinv
  | assign cu req => exact invariant_assign _ cu req hinv
  | submitCommit1 db1 data hp => exact invariant_phase1 hp hinv
  | submitFull data now =>
    rcases submit_result_cases db data now with h1 | ⟨db1, hp, h1⟩
    · rw [h1]; exact hinv
    · rw [h1]; exact invariant_submit_finish hp hinv

lemma reachable_invariant {db0 db : DB} (h0 : DB.Init db0) (h : Reachable db0 db) :
    Invariant db := by
  induction h with
  | refl => exact init_invariant h0
  | tail _ hs ih => exact step_preserves_invariant hs ih

lemma step_completed_persists {db db' : DB} (h : Step db db') (hinv : Invariant db)
    {ee : EmployeeEvaluation} (hm : ee ∈ db.employee_evaluations)
    (hc : ee.is_completed = true) : ee ∈ db'.employee_evaluations := by
  cases h with
  | createTemplate cu req =>
    rw [(create_preserves db cu req).1]
    exact hm
  | assign cu req =>
    rcases assign_full_cases db cu req with ⟨e, he⟩ | he <;> rw [he]
    · exact hm
    · exact List.mem_append_left _ hm
  | submitCommit1 db1 data hp =>
    obtain ⟨pend, hshape⟩ := submit_phase1_ok_shape hp
    rw [hshape]
    exact hm
  | submitFull data now =>
    rcases submit_result_cases db data now with h1 | ⟨db1, hp, h1⟩
    · rw [h1]; exact hm
    · rw [h1]
      obtain ⟨ee0, hfind, hinc⟩ := submit_phase1_ok_found hp
      obtain ⟨pend, hshape⟩ := submit_phase1_ok_shape hp
      have hm1 : ee ∈ db1.employee_evaluations := by rw [hshape]; exact hm
      have hne : ee.id ≠ data.evaluation_id := by
        intro hx
        have hid0 : ee0.id = data.evaluation_id := by
          simpa using List.find?_some hfind
        have hmem0 : ee0 ∈ db.employee_evaluations := List.mem_of_find?_eq_some hfind
        have : ee = ee0 :=
          List.inj_on_of_nodup_map hinv.1.1 hm hmem0 (by rw [hx, hid0])
        rw [this] at hc
        rw [hc] at hinc
        exact absurd hinc (by simp)
      rw [submit_finish_evals]
      have := List.mem_map_of_mem (fun e =>
        if e.id == data.evaluation_id
          then { e with is_completed := true, completion_date := some now } else e) hm1
      simpa [hne] using this

lemma step_new_rows {db db' : DB} (h : Step db db') (hinv : Invariant db)
    {ee2 : EmployeeEvaluation} (hm : ee2 ∈ db'.employee_evaluations)
    (hnew : ee2 ∉ db.employee_evaluations) :
    (ee2.is_completed = false ∧ ee2.completion_date = none)
    ∨ (∃ ee ∈ db.employee_evaluations, ee.id = ee2.id ∧ ee.is_completed = false
         ∧ ee.completion_date = none ∧ ee2.is_completed = true
         ∧ ee2.completion_date.isSome = true) := by
  cases h with
  | createTemplate cu req =>
    rw [(create_preserves db cu req).1] at hm
    exact absurd hm hnew
  | assign cu req =>
    rcases assign_full_cases db cu req with ⟨e, he⟩ | he <;> rw [he] at hm
    · exact absurd hm hnew
    · dsimp only at hm
      rcases List.mem_append.mp hm with hold | hnewmem
      · exact absurd hold hnew
      · left
        obtain ⟨q1, q2, _, _, _⟩ := assignments_for_mem hnewmem
        exact ⟨q1, q2⟩
  | submitCommit1 db1 data hp =>
    obtain ⟨pend, hshape⟩ := submit_phase1_ok_shape hp
    rw [hshape] at hm
    exact absurd hm hnew
  | submitFull data now =>
    rcases submit_result_cases db data now with h1 | ⟨db1, hp, h1⟩
    · rw [h1] at hm; exact absurd hm hnew
    · rw [h1] at hm
      obtain ⟨ee0, hfind, hinc⟩ := submit_phase1_ok_found hp
      obtain ⟨pend, hshape⟩ := submit_phase1_ok_shape hp
      have hevals : db1.employee_evaluations = db.employee_evaluations := by
        rw [hshape]
      rw [submit_finish_evals, hevals] at hm
      obtain ⟨ee1, hee1, hmap⟩ := List.mem_map.mp hm
      by_cases hid : ee1.id = data.evaluation_id
      · have hid0 : ee0.id = data.evaluation_id := by
          simpa using List.find?_some hfind
        have hmem0 : ee0 ∈ db.employee_evaluations := List.mem_of_find?_eq_some hfind
        have hee1eq : ee1 = ee0 :=
          List.inj_on_of_nodup_map hinv.1.1 hee1 hmem0 (by rw [hid, hid0])
        have hee2 : ee2 = { ee1 with is_completed := true, completion_date := some now } := by
          rw [← hmap]; simp [hid]
        right
        refine ⟨ee1, hee1, ?_, ?_, ?_, ?_, ?_⟩
        · rw [hee2]
        · rw [hee1eq]; exact hinc
        · have hdate : ee1.completion_date.isSome = false := by
            rcases (hinv.2 ee1 hee1) with ⟨p1, _, _⟩
            rw [hee1eq] at *
            by_cases hq : ee0.completion_date.isSome = true
            · exact absurd (p1.mpr hq) (by rw [hinc]; simp)
            · simpa using hq
          exact Option.not_isSome_iff_eq_none.mp (by rw [hdate]; simp)
        · rw [hee2]
        · rw [hee2]; rfl
      · have : ee2 = ee1 := by rw [← hmap]; simp [hid]
        rw [this] at hnew
        exact absurd hee1 hnew

lemma assign_unowned_employee {db : DB} {cu : CurrentUser} {req : AssignEvaluationRequest}
    {eid : Nat}
    (hcu : cu.user_type = UserType.company)
    (hmem : eid ∈ req.employee_ids)
    (hnone : db.employees.find?
        (fun e => e.employee_id == eid && e.company_id == cu.user_id) = none) :
    ∃ e, assign_evaluation_to_employees db cu req = (db, .error e)
      ∧ e.status_code = 404 := by
  unfold assign_evaluation_to_employees
  rw [hcu]
  simp only [bne_self_eq_false, Bool.false_eq_true, if_false]
  cases ht : db.evaluation_templates.find?
      (fun t => t.id == req.template_id && t.company_id == cu.user_id) with
  | none => exact ⟨_, rfl, rfl⟩
  | some t =>
    obtain ⟨e, he, hs⟩ := build_assignments_unowned hmem hnone db.next_evaluation_id []
    rw [he]
    exact ⟨e, rfl, hs⟩

lemma assign_success_eq {db : DB} {cu : CurrentUser} {req : AssignEvaluationRequest}
    (hcu : cu.user_type = UserType.company)
    (ht : (db.evaluation_templates.find? (fun t =>
        t.id == req.template_id && t.company_id == cu.user_id)).isSome = true)
    (hemp : ∀ eid ∈ req.employee_ids, (db.employees.find? (fun e =>
        e.employee_id == eid && e.company_id == cu.user_id)).isSome = true) :
    assign_evaluation_to_employees db cu req
      = ({ db with
            employee_evaluations := db.employee_evaluations
              ++ assignments_for req.template_id req.due_date db.next_evaluation_id
                   req.employee_ids,
            next_evaluation_id := db.next_evaluation_id
              + (assignments_for req.template_id req.due_date db.next_evaluation_id
                   req.employee_ids).length },
         .ok ()) := by
  obtain ⟨t, htv⟩ := Option.isSome_iff_exists.mp ht
  unfold assign_evaluation_to_employees
  rw [hcu]
  simp only [bne_self_eq_false, Bool.false_eq_true, if_false, htv]
  rw [build_assignments_total hemp db.next_evaluation_id []]
  simp only [List.nil_append]

lemma find?_append_none {α : Type} {p : α → Bool} {l1 l2 : List α}
    (h : l1.find? p = none) : (l1 ++ l2).find? p = l2.find? p := by
  rw [List.find?_append, h]
  rfl

/-! ### Concrete stores used as test fixtures -/

/-- An initial store: one catalog question, one employee of company 100, one
template of company 100, no assignments yet. -/
def wf_store : DB :=
  { questions := [⟨10, "q", "Auto_10"⟩],
    employees := [⟨7, 100⟩],
    evaluation_templates := [⟨1, "T", none, 100⟩],
    employee_evaluations := [],
    responses := [],
    calculation_results := [],
    next_template_id := 2,
    next_evaluation_id := 1 }

def wf_cu : CurrentUser := ⟨100, UserType.company⟩

def wf_assign_req : AssignEvaluationRequest := ⟨1, [7], 0⟩

def wf_submit_req : EvaluationResponseSchema := ⟨1, [⟨10, 5⟩]⟩

/-- The store after assigning template 1 to employee 7. -/
def assigned_store : DB :=
  (assign_evaluation_to_employees wf_store wf_cu wf_assign_req).1

/-- The committed state right after the first commit of a submission against
`assigned_store`: the response row is persisted, nothing else has changed. -/
def mid_store : DB :=
  { assigned_store with responses := assigned_store.responses ++ [⟨1, 10, 5⟩] }

/-- The store after a full successful submission against `assigned_store`. -/
def completed_store : DB :=
  (submit_evaluation_responses assigned_store wf_submit_req 77).1

/-- Fixture for the weighted-sum example: only `Auto_10=5, Auto_6=4, Auto_5=3,
Auto_3=2` are answered for assignment 1. -/
def scoring_store : DB :=
  { questions := [⟨10, "q", "Auto_10"⟩, ⟨6, "q", "Auto_6"⟩, ⟨5, "q", "Auto_5"⟩,
                  ⟨3, "q", "Auto_3"⟩],
    employees := [],
    evaluation_templates := [],
    employee_evaluations := [⟨1, 7, 1, 0, none, false⟩],
    responses := [⟨1, 10, 5⟩, ⟨1, 6, 4⟩, ⟨1, 5, 3⟩, ⟨1, 3, 2⟩],
    calculation_results := [],
    next_template_id := 1,
    next_evaluation_id := 2 }

/-! ### Claim theorems -/

/-- C1 (counterexample): the submission of responses is NOT one atomic unit.
Starting from an initial store, after assigning the template there is an
observable committed state — reached by the first `db.commit()` of
`submit_evaluation_responses` (evaluation.py:330) — in which the Response row
is persisted while no CalculationResult row exists and `is_completed` is still
false, even though the very same submission then runs to success. -/
theorem submit_not_atomic_counterexample :
    DB.Init wf_store
    ∧ Reachable wf_store assigned_store
    ∧ Step assigned_store mid_store
    ∧ mid_store.responses = [⟨1, 10, 5⟩]
    ∧ mid_store.calculation_results = []
    ∧ mid_store.employee_evaluations = [⟨1, 7, 1, 0, none, false⟩]
    ∧ ∃ r, (submit_evaluation_responses assigned_store wf_submit_req 77).2 = .ok r :=
  ⟨⟨rfl, rfl, rfl⟩,
   Reachable.tail (Reachable.refl wf_store) (Step.assign wf_store wf_cu wf_assign_req),
   Step.submitCommit1 assigned_store mid_store wf_submit_req rfl,
   by decide, by decide, by decide,
   ⟨_, rfl⟩⟩

/-- C1 (amended): a successful submission decomposes into two separately
committed transactions.  The first commit persists exactly the new Response
rows, leaving `employee_evaluations` (so `is_completed`/`completion_date`) and
`calculation_results` untouched, and is itself an observable step; the second
commit appends the CalculationResult row for the assignment and sets
`is_completed` and `completion_date` together. -/
theorem submit_two_commit_decomposition (db : DB) (data : EvaluationResponseSchema)
    (now : Nat) (db1 : DB) (h : submit_phase1 db data = .ok db1) :
    Step db db1
    ∧ db1.employee_evaluations = db.employee_evaluations
    ∧ db1.calculation_results = db.calculation_results
    ∧ (∃ pend, db1.responses = db.responses ++ pend)
    ∧ (submit_evaluation_responses db data now).1 = submit_finish db1 data.evaluation_id now
    ∧ (∃ r, (submit_evaluation_responses db data now).2 = .ok r)
    ∧ (∃ cr, (submit_finish db1 data.evaluation_id now).calculation_results
          = db1.calculation_results ++ [cr]
          ∧ cr.employee_evaluation_id = data.evaluation_id)
    ∧ (∀ ee ∈ (submit_finish db1 data.evaluation_id now).employee_evaluations,
        ee.id = data.evaluation_id →
          ee.is_completed = true ∧ ee.completion_date = some now) := by
  obtain ⟨pend, hshape⟩ := submit_phase1_ok_shape h
  refine ⟨Step.submitCommit1 db db1 data h, ?_, ?_, ⟨pend, ?_⟩, ?_, ?_, ?_, ?_⟩
  · rw [hshape]
  · rw [hshape]
  · rw [hshape]
  · unfold submit_evaluation_responses
    rw [h]
  · unfold submit_evaluation_responses
    rw [h]
    exact ⟨_, rfl⟩
  · exact ⟨_, rfl, rfl⟩
  · intro ee hm hid
    rw [submit_finish_evals] at hm
    obtain ⟨ee1, _, hmap⟩ := List.mem_map.mp hm
    by_cases hcase : ee1.id = data.evaluation_id
    · rw [← hmap]
      simp [hcase]
    · have : ee = ee1 := by rw [← hmap]; simp [hcase]
      rw [this] at hid
      exact absurd hid hcase

/-- C1 (amended) witness: the decomposition instantiated on the concrete
one-question scenario. -/
theorem submit_two_commit_decomposition_witness :
    Step assigned_store mid_store
    ∧ mid_store.employee_evaluations = assigned_store.employee_evaluations
    ∧ mid_store.calculation_results = assigned_store.calculation_results
    ∧ (∃ pend, mid_store.responses = assigned_store.responses ++ pend)
    ∧ (submit_evaluation_responses assigned_store wf_submit_req 77).1
        = submit_finish mid_store wf_submit_req.evaluation_id 77
    ∧ (∃ r, (submit_evaluation_responses assigned_store wf_submit_req 77).2 = .ok r)
    ∧ (∃ cr, (submit_finish mid_store wf_submit_req.evaluation_id 77).calculation_results
          = mid_store.calculation_results ++ [cr]
          ∧ cr.employee_evaluation_id = wf_submit_req.evaluation_id)
    ∧ (∀ ee ∈ (submit_finish mid_store wf_submit_req.evaluation_id 77).employee_evaluations,
        ee.id = wf_submit_req.evaluation_id →
          ee.is_completed = true ∧ ee.completion_date = some 77) :=
  submit_two_commit_decomposition assigned_store wf_submit_req 77 mid_store rfl

/-- C2: the batch submission is all-or-nothing.  Every failing submission
returns the committed store — in particular the Response and
CalculationResult tables — exactly as it was; a missing assignment, an
already-completed assignment, an unknown question id anywhere in the batch,
and a question id that already has a stored Response for the assignment each
reject the entire submission. -/
theorem failed_submission_writes_nothing (db : DB) (data : EvaluationResponseSchema)
    (now : Nat) :
    (∀ e, (submit_evaluation_responses db data now).2 = .error e →
        (submit_evaluation_responses db data now).1 = db
        ∧ (submit_evaluation_responses db data now).1.responses = db.responses
        ∧ (submit_evaluation_responses db data now).1.calculation_results
            = db.calculation_results)
    ∧ (db.employee_evaluations.find? (fun ee => ee.id == data.evaluation_id) = none →
        submit_evaluation_responses db data now
          = (db, .error ⟨404, "Evaluación asignada no encontrada."⟩))
    ∧ (∀ ee, db.employee_evaluations.find?
          (fun e2 => e2.id == data.evaluation_id) = some ee →
        ee.is_completed = true →
        submit_evaluation_responses db data now
          = (db, .error ⟨400, "Esta evaluación ya ha sido completada."⟩))
    ∧ ((∃ a ∈ data.answers,
          db.questions.find? (fun q => q.id == a.question_id) = none
          ∨ (db.responses.find? (fun r =>
               r.employee_evaluation_id == data.evaluation_id
                 && r.question_id == a.question_id)).isSome = true) →
        ∃ e, submit_evaluation_responses db data now = (db, .error e)) := by
  refine ⟨?_, ?_, ?_, ?_⟩
  · intro e h
    have h1 := submit_error_unchanged h
    exact ⟨h1, by rw [h1], by rw [h1]⟩
  · intro hf
    exact submit_of_phase1_error (by unfold submit_phase1; rw [hf])
  · intro ee hf hc
    exact submit_already_completed_eq hf hc
  · intro hbad
    cases hf : db.employee_evaluations.find? (fun e2 => e2.id == data.evaluation_id) with
    | none =>
      exact ⟨_, submit_of_phase1_error (by unfold submit_phase1; rw [hf])⟩
    | some ee =>
      cases hc : ee.is_completed with
      | true => exact ⟨_, submit_already_completed_eq hf hc⟩
      | false =>
        have hid : ee.id = data.evaluation_id := by
          simpa using List.find?_some hf
        have hbad2 : ∃ a ∈ data.answers,
            db.questions.find? (fun q => q.id == a.question_id) = none
            ∨ (db.responses.find? (fun r =>
                 r.employee_evaluation_id == ee.id
                   && r.question_id == a.question_id)).isSome = true := by
          rw [hid]
          exact hbad
        obtain ⟨e, he⟩ := build_responses_fails hbad2 []
        refine ⟨e, submit_of_phase1_error ?_⟩
        unfold submit_phase1
        rw [hf]
        simp only [hc, Bool.false_eq_true, if_false, he]

/-- C2 witness: submitting against a store with no such assignment fails with
the 404 error and changes nothing. -/
theorem failed_submission_writes_nothing_witness :
    submit_evaluation_responses wf_store wf_submit_req 0
      = (wf_store, .error ⟨404, "Evaluación asignada no encontrada."⟩) :=
  (failed_submission_writes_nothing wf_store wf_submit_req 0).2.1 rfl

/-- C3: submitting against a completed assignment fails with the
already-completed error and returns the store unchanged; moreover a completed
assignment row persists unchanged across every further step of the system, so
COMPLETED is terminal. -/
theorem completed_assignment_is_terminal :
    (∀ (db : DB) (data : EvaluationResponseSchema) (now : Nat) (ee : EmployeeEvaluation),
      db.employee_evaluations.find? (fun e => e.id == data.evaluation_id) = some ee →
      ee.is_completed = true →
      submit_evaluation_responses db data now
        = (db, .error ⟨400, "Esta evaluación ya ha sido completada."⟩))
    ∧ (∀ db0 db db2 : DB, DB.Init db0 → Reachable db0 db → Step db db2 →
        ∀ ee ∈ db.employee_evaluations, ee.is_completed = true →
          ee ∈ db2.employee_evaluations) :=
  ⟨fun _ _ _ _ hf hc => submit_already_completed_eq hf hc,
   fun _ _ _ h0 hr hs _ hm hc =>
     step_completed_persists hs (reachable_invariant h0 hr) hm hc⟩

/-- C3 witness: a second submission against the completed fixture fails with
the already-completed error, and the completed row survives that step. -/
theorem completed_assignment_is_terminal_witness :
    submit_evaluation_responses completed_store wf_submit_req 0
      = (completed_store, .error ⟨400, "Esta evaluación ya ha sido completada."⟩)
    ∧ (⟨1, 7, 1, 0, some 77, true⟩ : EmployeeEvaluation)
        ∈ (submit_evaluation_responses completed_store wf_submit_req 0).1.employee_evaluations :=
  ⟨completed_assignment_is_terminal.1 completed_store wf_submit_req 0
      ⟨1, 7, 1, 0, some 77, true⟩ (by decide) rfl,
   completed_assignment_is_terminal.2 wf_store completed_store
      (submit_evaluation_responses completed_store wf_submit_req 0).1
      ⟨rfl, rfl, rfl⟩
      (Reachable.tail
        (Reachable.tail (Reachable.refl wf_store) (Step.assign wf_store wf_cu wf_assign_req))
        (Step.submitFull assigned_store wf_submit_req 77))
      (Step.submitFull completed_store wf_submit_req 0)
      ⟨1, 7, 1, 0, some 77, true⟩ (by decide) rfl⟩

/-- C4: the scoring hierarchy rolls up exactly as specified: for every store
and assignment, `E1 = F1+F2+F3+F4+F5`, `E2 = F6`, `E3 = F7+F8+F9`,
`overall_selfleadership = 0.3172·E1 + 0.3155·E2 + 0.3672·E3`, and
`overall_performance_score = 0.4817·D1 + 0.3936·D2 + 0.1246·D3`. -/
theorem scoring_hierarchy_rollup (db : DB) (eeid : Nat) :
    (calculate_autoliderazgo db eeid).E1
        = (calculate_autoliderazgo db eeid).F1 + (calculate_autoliderazgo db eeid).F2
          + (calculate_autoliderazgo db eeid).F3 + (calculate_autoliderazgo db eeid).F4
          + (calculate_autoliderazgo db eeid).F5
    ∧ (calculate_autoliderazgo db eeid).E2 = (calculate_autoliderazgo db eeid).F6
    ∧ (calculate_autoliderazgo db eeid).E3
        = (calculate_autoliderazgo db eeid).F7 + (calculate_autoliderazgo db eeid).F8
          + (calculate_autoliderazgo db eeid).F9
    ∧ (calculate_autoliderazgo db eeid).overall_selfleadership
        = 0.3172 * (calculate_autoliderazgo db eeid).E1
          + 0.3155 * (calculate_autoliderazgo db eeid).E2
          + 0.3672 * (calculate_autoliderazgo db eeid).E3
    ∧ (calculate_desempeno db eeid).overall_performance_score
        = 0.4817 * (calculate_desempeno db eeid).D1
          + 0.3936 * (calculate_desempeno db eeid).D2
          + 0.1246 * (calculate_desempeno db eeid).D3 := by
  refine ⟨rfl, rfl, rfl, ?_, ?_⟩
  · show (calculate_autoliderazgo db eeid).E1 * 0.3172
        + (calculate_autoliderazgo db eeid).E2 * 0.3155
        + (calculate_autoliderazgo db eeid).E3 * 0.3672
      = _
    ring
  · show (calculate_desempeno db eeid).D1 * 0.4817
        + (calculate_desempeno db eeid).D2 * 0.3936
        + (calculate_desempeno db eeid).D3 * 0.1246
      = _
    ring

/-- C5: on the fixture answering only `Auto_10=5, Auto_6=4, Auto_5=3,
Auto_3=2`, the scoring engine yields
`F1 = 0.2003·5 + 0.1918·4 + 0.1306·3 + 0.1240·2 = 2.4085` and `E1 = F1`. -/
theorem scoring_weighted_sum_example :
    (calculate_autoliderazgo scoring_store 1).F1 = 2.4085
    ∧ (calculate_autoliderazgo scoring_store 1).E1
        = (calculate_autoliderazgo scoring_store 1).F1 := by
  constructor
  · simp [calculate_autoliderazgo, weighted_sum, get_response_score_by_code,
      question_code_is, scoring_store, List.find?_cons]
    norm_num
  · simp [calculate_autoliderazgo, weighted_sum, get_response_score_by_code,
      question_code_is, scoring_store, List.find?_cons]

/-- C6: when no Response row of the assignment joins to the requested question
code, the lookup used by every weight-table term totally returns `0` — absence
of an answer is tolerated, never an error. -/
theorem absent_response_scores_zero (db : DB) (eeid : Nat) (code : String)
    (h : db.responses.find? (fun r => r.employee_evaluation_id == eeid
          && question_code_is db r.question_id code) = none) :
    get_response_score_by_code db eeid code = 0 := by
  unfold get_response_score_by_code
  rw [h]

/-- C6 witness: `Auto_14` is unanswered in the scoring fixture, and its looked
up score is `0`. -/
theorem absent_response_scores_zero_witness :
    get_response_score_by_code scoring_store 1 "Auto_14" = 0 :=
  absent_response_scores_zero scoring_store 1 "Auto_14" (by decide)

/-- C8: at every store reachable from an initial store,
`is_completed = true ⇔ completion_date ≠ null ⇔ exactly one CalculationResult
row exists for the assignment` (and an incomplete assignment has none);
completed rows are never changed or removed by any further step; and any row a
step adds or rewrites is either a fresh assignment starting incomplete with a
null completion date, or the unique completion flip that sets `is_completed`
and `completion_date` together on a previously incomplete row. -/
theorem completion_state_invariant (db0 db : DB) (h0 : DB.Init db0)
    (hr : Reachable db0 db) :
    CompletionInvariant db
    ∧ (∀ db2, Step db db2 →
        (∀ ee ∈ db.employee_evaluations, ee.is_completed = true →
           ee ∈ db2.employee_evaluations)
        ∧ (∀ ee2 ∈ db2.employee_evaluations, ee2 ∉ db.employee_evaluations →
            (ee2.is_completed = false ∧ ee2.completion_date = none)
            ∨ (∃ ee ∈ db.employee_evaluations, ee.id = ee2.id ∧ ee.is_completed = false
                 ∧ ee.completion_date = none ∧ ee2.is_completed = true
                 ∧ ee2.completion_date.isSome = true))) :=
  have hinv := reachable_invariant h0 hr
  ⟨hinv.2, fun _ hs =>
    ⟨fun _ hm hc => step_completed_persists hs hinv hm hc,
     fun _ hm hnew => step_new_rows hs hinv hm hnew⟩⟩

/-- C8 witness: the invariant instantiated at the completed fixture store,
reached by an assignment step and a full submission step. -/
theorem completion_state_invariant_witness :
    CompletionInvariant completed_store :=
  (completion_state_invariant wf_store completed_store ⟨rfl, rfl, rfl⟩
    (Reachable.tail
      (Reachable.tail (Reachable.refl wf_store) (Step.assign wf_store wf_cu wf_assign_req))
      (Step.submitFull assigned_store wf_submit_req 77))).1

/-- C7: assigning a template is all-or-nothing under ownership checks: any
failure returns the store unchanged; a template not owned by the calling
company yields the 404 template error; a listed employee not owned by the
calling company yields a 404 error with no rows created; on success exactly
one assignment row per listed employee id is appended, each starting
incomplete with a null completion date (one row per listed id; exactly one per
employee when the listed ids are distinct). -/
theorem assign_ownership_all_or_nothing (db : DB) (cu : CurrentUser)
    (req : AssignEvaluationRequest) :
    (∀ e, (assign_evaluation_to_employees db cu req).2 = .error e →
       (assign_evaluation_to_employees db cu req).1 = db)
    ∧ (cu.user_type = UserType.company →
        db.evaluation_templates.find? (fun t =>
          t.id == req.template_id && t.company_id == cu.user_id) = none →
        assign_evaluation_to_employees db cu req
          = (db, .error ⟨404,
              "Evaluation template not found or does not belong to your company."⟩))
    ∧ (∀ eid ∈ req.employee_ids, cu.user_type = UserType.company →
        db.employees.find?
          (fun e => e.employee_id == eid && e.company_id == cu.user_id) = none →
        ∃ e, assign_evaluation_to_employees db cu req = (db, .error e)
          ∧ e.status_code = 404)
    ∧ (cu.user_type = UserType.company →
        (db.evaluation_templates.find? (fun t =>
            t.id == req.template_id && t.company_id == cu.user_id)).isSome = true →
        (∀ eid ∈ req.employee_ids, (db.employees.find? (fun e =>
            e.employee_id == eid && e.company_id == cu.user_id)).isSome = true) →
        (assign_evaluation_to_employees db cu req).2 = .ok ()
        ∧ (assign_evaluation_to_employees db cu req).1.employee_evaluations
            = db.employee_evaluations
              ++ assignments_for req.template_id req.due_date db.next_evaluation_id
                   req.employee_ids
        ∧ (∀ a ∈ assignments_for req.template_id req.due_date db.next_evaluation_id
              req.employee_ids,
            a.is_completed = false ∧ a.completion_date = none
              ∧ a.employee_id ∈ req.employee_ids)
        ∧ (req.employee_ids.Nodup → ∀ eid ∈ req.employee_ids,
            ((assignments_for req.template_id req.due_date db.next_evaluation_id
                req.employee_ids).filter (fun a => a.employee_id == eid)).length = 1)) := by
  refine ⟨?_, ?_, ?_, ?_⟩
  · intro e he
    exact assign_error_unchanged he
  · intro hcu htn
    unfold assign_evaluation_to_employees
    rw [hcu]
    simp only [bne_self_eq_false, Bool.false_eq_true, if_false, htn]
  · intro eid hmem hcu hnone
    exact assign_unowned_employee hcu hmem hnone
  · intro hcu ht hemp
    rw [assign_success_eq hcu ht hemp]
    refine ⟨rfl, rfl, ?_, ?_⟩
    · intro a ha
      obtain ⟨q1, q2, _, _, q5⟩ := assignments_for_mem ha
      exact ⟨q1, q2, q5⟩
    · intro hnodup eid hmem
      rw [assignments_for_count]
      exact List.count_eq_one_of_mem hnodup hmem

/-- C7 witness: the success case on the fixture (template 1 and employee 7 of
company 100) and the not-owned-template failure for a foreign company. -/
theorem assign_ownership_all_or_nothing_witness :
    ((assign_evaluation_to_employees wf_store wf_cu wf_assign_req).2 = .ok ()
      ∧ (assign_evaluation_to_employees wf_store wf_cu wf_assign_req).1.employee_evaluations
          = wf_store.employee_evaluations
            ++ assignments_for wf_assign_req.template_id wf_assign_req.due_date
                 wf_store.next_evaluation_id wf_assign_req.employee_ids)
    ∧ assign_evaluation_to_employees wf_store ⟨999, UserType.company⟩ wf_assign_req
        = (wf_store, .error ⟨404,
            "Evaluation template not found or does not belong to your company."⟩) :=
  ⟨⟨((assign_ownership_all_or_nothing wf_store wf_cu wf_assign_req).2.2.2 rfl
        (by decide) (by decide)).1,
    ((assign_ownership_all_or_nothing wf_store wf_cu wf_assign_req).2.2.2 rfl
        (by decide) (by decide)).2.1⟩,
   (assign_ownership_all_or_nothing wf_store ⟨999, UserType.company⟩ wf_assign_req).2.1
      rfl (by decide)⟩

/-- C9: creating a template with a `(companyId, title)` pair that is free
succeeds and inserts exactly one row with that pair; an immediately repeated
creation with the same title fails with the duplicate-template error, inserts
nothing, and leaves exactly that one row. -/
theorem duplicate_template_rejected (db : DB) (cu : CurrentUser)
    (req : CreateEvaluationTemplateRequest)
    (hcu : cu.user_type = UserType.company)
    (hfresh : templates_with_title db cu.user_id req.title = []) :
    (create_evaluation_template db cu req).2 = .ok db.next_template_id
    ∧ templates_with_title (create_evaluation_template db cu req).1 cu.user_id req.title
        = [⟨db.next_template_id, req.title, req.description, cu.user_id⟩]
    ∧ create_evaluation_template (create_evaluation_template db cu req).1 cu req
        = ((create_evaluation_template db cu req).1,
           .error ⟨400,
             "An evaluation template with this title already exists for your company."⟩) := by
  have hnone : db.evaluation_templates.find?
      (fun t => t.title == req.title && t.company_id == cu.user_id) = none :=
    find?_none_iff_filter_nil.mpr hfresh
  have h1 := create_fresh_inserts hcu hnone
  have hfilter : templates_with_title (create_evaluation_template db cu req).1
      cu.user_id req.title
        = [⟨db.next_template_id, req.title, req.description, cu.user_id⟩] := by
    rw [h1]
    unfold templates_with_title at *
    rw [List.filter_append]
    rw [find?_none_iff_filter_nil.mp hnone]
    simp
  refine ⟨by rw [h1], hfilter, ?_⟩
  have hdup : ((create_evaluation_template db cu req).1).evaluation_templates.find?
      (fun t => t.title == req.title && t.company_id == cu.user_id)
        = some ⟨db.next_template_id, req.title, req.description, cu.user_id⟩ := by
    rw [h1]
    dsimp only
    rw [find?_append_none hnone]
    simp
  exact create_duplicate_rejected hcu hdup

/-- C9 witness: company 100 creates the template "Annual" twice against the
fixture store; the first call succeeds, the second fails, one row remains. -/
theorem duplicate_template_rejected_witness :
    (create_evaluation_template wf_store wf_cu ⟨"Annual", none⟩).2 = .ok wf_store.next_template_id
    ∧ templates_with_title (create_evaluation_template wf_store wf_cu ⟨"Annual", none⟩).1
        wf_cu.user_id "Annual"
        = [⟨wf_store.next_template_id, "Annual", none, wf_cu.user_id⟩]
    ∧ create_evaluation_template (create_evaluation_template wf_store wf_cu ⟨"Annual", none⟩).1
        wf_cu ⟨"Annual", none⟩
        = ((create_evaluation_template wf_store wf_cu ⟨"Annual", none⟩).1,
           .error ⟨400,
             "An evaluation template with this title already exists for your company."⟩) :=
  duplicate_template_rejected wf_store wf_cu ⟨"Annual", none⟩ rfl (by decide)

/-- C10: the submit route declares no authenticated principal — its embedding
takes no `CurrentUser` argument — and every error it can raise is a 404 or a
400: it never fails with 403 Forbidden or 401 InvalidCredential. -/
theorem submit_never_requires_authorization (db : DB) (data : EvaluationResponseSchema)
    (now : Nat) (e : HTTPError)
    (h : (submit_evaluation_responses db data now).2 = .error e) :
    (e.status_code = 404 ∨ e.status_code = 400)
    ∧ e.status_code ≠ 403 ∧ e.status_code ≠ 401 := by
  have hst : e.status_code = 404 ∨ e.status_code = 400 := by
    unfold submit_evaluation_responses at h
    cases hp : submit_phase1 db data with
    | error e2 =>
      rw [hp] at h
      simp only at h
      obtain rfl : e2 = e := by simpa using h
      exact submit_phase1_error_status hp
    | ok db1 =>
      rw [hp] at h
      simp at h
  exact ⟨hst, by rcases hst with h1 | h1 <;> omega, by rcases hst with h1 | h1 <;> omega⟩

/-- C10 witness: the concrete missing-assignment failure is a 404, not an
authorization failure. -/
theorem submit_never_requires_authorization_witness :
    (((⟨404, "Evaluación asignada no encontrada."⟩ : HTTPError).status_code = 404
        ∨ (⟨404, "Evaluación asignada no encontrada."⟩ : HTTPError).status_code = 400)
      ∧ (⟨404, "Evaluación asignada no encontrada."⟩ : HTTPError).status_code ≠ 403
      ∧ (⟨404, "Evaluación asignada no encontrada."⟩ : HTTPError).status_code ≠ 401) :=
  submit_never_requires_authorization wf_store wf_submit_req 0
    ⟨404, "Evaluación asignada no encontrada."⟩ rfl

end ADAP
